import Mathlib

/-!
Verification of the TalentOS backend core: the productivity scoring engine
(`calculateProductivityScore`, services/scoring.service.ts) and the AI response
cache (`getCachedResponse` / `cacheResponse` and their callers `analyzeSkillGap`,
`getDailyInsight`, `smartAssign` in services/ai.service.ts).

The embedding is shallow: JavaScript numbers are modelled as rationals (the
source only ever divides small task counts and multiplies by integer weights),
`Math.round` as `jsRound` (floor of x + 1/2, which is exactly JavaScript's
round-half-up toward positive infinity), timestamps as integers (milliseconds),
and the aiCache table as a list of rows. Database rows are keyed by the unique
composite index (orgId, cacheKey); `expiresAt` is NOT NULL in the schema, so the
truthiness guard on `cached.expiresAt` in the source is always satisfied and is
dropped. Storage failure of the eager delete of a stale row is modelled by a
boolean `deleteOk` oracle; the AI generation step (model call plus JSON
parsing) is modelled as an `Except String String` value supplied by the caller.
-/

namespace TalentOS

/-! ## ScoreEngine: data model (services/scoring.service.ts) -/

inductive TaskStatus
  | TODO
  | IN_PROGRESS
  | COMPLETED
deriving DecidableEq, Repr

inductive TaskPriority
  | LOW
  | MEDIUM
  | HIGH
deriving DecidableEq, Repr

/-- One task row as selected by `calculateProductivityScore`
(status, priority, deadline, completedAt); timestamps in milliseconds. -/
structure Task where
  status : TaskStatus
  priority : TaskPriority
  deadline : Option Int
  completedAt : Option Int
deriving DecidableEq, Repr

/-- The `TaskStats` record computed from the fetched tasks. -/
structure TaskStats where
  totalTasks : Nat
  completedTasks : Nat
  onTimeTasks : Nat
  highPriorityTotal : Nat
  highPriorityCompleted : Nat
deriving DecidableEq, Repr

/-- The `ProductivityScore` result record returned to callers. -/
structure ProductivityScore where
  finalScore : Int
  completionRate : Int
  deadlineScore : Int
  priorityScore : Int
  breakdown : TaskStats
deriving DecidableEq, Repr

/-- JavaScript `Math.round`: round half up, i.e. floor of x + 1/2. -/
def jsRound (q : ℚ) : ℤ := ⌊q + 1 / 2⌋

/-- Filter used for `completedTasks`: status is COMPLETED. -/
def isCompleted (t : Task) : Bool := t.status == .COMPLETED

/-- Filter used for `onTimeTasks`: completed, both timestamps present,
and completedAt is at most the deadline. -/
def isOnTime (t : Task) : Bool :=
  isCompleted t &&
    match t.completedAt, t.deadline with
    | some c, some d => decide (c ≤ d)
    | _, _ => false

/-- Filter used for `highPriorityTotal`: priority is HIGH. -/
def isHighPriority (t : Task) : Bool := t.priority == .HIGH

/-- The five counts computed from the fetched task list. -/
def computeStats (tasks : List Task) : TaskStats :=
  { totalTasks := tasks.length
    completedTasks := (tasks.filter isCompleted).length
    onTimeTasks := (tasks.filter isOnTime).length
    highPriorityTotal := (tasks.filter isHighPriority).length
    highPriorityCompleted :=
      (tasks.filter (fun t => isCompleted t && isHighPriority t)).length }

/-- The pure part of `calculateProductivityScore`, applied to the task rows the
source fetches for one employee. Mirrors the source: zero tasks short-circuit
to an all-zero result; otherwise base weights 40/35/25, with the priority
weight folded into the completion weight when there is no HIGH-priority task;
each sub-score is reported rounded, and the final score is the rounded sum of
the unrounded contributions, clamped to [0, 100]. -/
def calculateProductivityScore (tasks : List Task) : ProductivityScore :=
  let stats := computeStats tasks
  if stats.totalTasks = 0 then
    { finalScore := 0, completionRate := 0, deadlineScore := 0,
      priorityScore := 0, breakdown := stats }
  else
    let completionWeight : ℚ := if stats.highPriorityTotal = 0 then 65 else 40
    let priorityWeight : ℚ := if stats.highPriorityTotal = 0 then 0 else 25
    let completionRate : ℚ :=
      ((stats.completedTasks : ℚ) / (stats.totalTasks : ℚ)) * completionWeight
    let deadlineScore : ℚ :=
      if 0 < stats.completedTasks then
        ((stats.onTimeTasks : ℚ) / (stats.completedTasks : ℚ)) * 35
      else 0
    let priorityScore : ℚ :=
      if 0 < stats.highPriorityTotal then
        ((stats.highPriorityCompleted : ℚ) / (stats.highPriorityTotal : ℚ)) *
          priorityWeight
      else 0
    let finalScore := jsRound (completionRate + deadlineScore + priorityScore)
    { finalScore := min 100 (max 0 finalScore)
      completionRate := jsRound completionRate
      deadlineScore := jsRound deadlineScore
      priorityScore := jsRound priorityScore
      breakdown := stats }

/-- The unrounded completion contribution `(completedTasks / totalTasks) *
completionWeight` of the source, as a standalone function of the stats. -/
def rawCompletionRate (stats : TaskStats) : ℚ :=
  ((stats.completedTasks : ℚ) / (stats.totalTasks : ℚ)) *
    (if stats.highPriorityTotal = 0 then 65 else 40)

/-- The unrounded deadline contribution of the source. -/
def rawDeadlineScore (stats : TaskStats) : ℚ :=
  if 0 < stats.completedTasks then
    ((stats.onTimeTasks : ℚ) / (stats.completedTasks : ℚ)) * 35
  else 0

/-- The unrounded priority contribution of the source. -/
def rawPriorityScore (stats : TaskStats) : ℚ :=
  if 0 < stats.highPriorityTotal then
    ((stats.highPriorityCompleted : ℚ) / (stats.highPriorityTotal : ℚ)) *
      (if stats.highPriorityTotal = 0 then 0 else 25)
  else 0

/-! ## ResponseCache: data model (services/ai.service.ts, table ai_caches) -/

/-- One row of the ai_caches table: primary key `id`, the composite unique key
(orgId, cacheKey), opaque `content`, and the absolute expiry timestamp in
milliseconds (NOT NULL in the schema). -/
structure CacheEntry where
  id : String
  orgId : String
  cacheKey : String
  content : String
  expiresAt : Int
deriving DecidableEq, Repr

/-- The ai_caches table, as the list of its rows. -/
abbrev CacheState := List CacheEntry

/-- Source `prisma.aiCache.findUnique` on the composite unique index
(orgId, cacheKey). -/
def findUnique (st : CacheState) (orgId cacheKey : String) : Option CacheEntry :=
  st.find? (fun e => e.orgId == orgId && e.cacheKey == cacheKey)

/-- Source `prisma.aiCache.delete` by primary key. -/
def deleteById (st : CacheState) (id : String) : CacheState :=
  st.filter (fun e => e.id != id)

/-- Source `getCachedResponse`: look the key up; a missing row is a miss; a row whose
`expiresAt` is strictly before `now` is eagerly deleted and reported as a miss
(the delete is awaited with no try/catch, so a storage failure of the delete,
modelled by `deleteOk = false`, propagates as an error); otherwise the stored
content is returned. The returned pair is (outcome, table state afterwards). -/
def getCachedResponse (deleteOk : Bool) (now : Int) (orgId cacheKey : String)
    (st : CacheState) : Except String (Option String) × CacheState :=
  match findUnique st orgId cacheKey with
  | none => (.ok none, st)
  | some cached =>
    if cached.expiresAt < now then
      if deleteOk then (.ok none, deleteById st cached.id)
      else (.error "storage: delete failed", st)
    else (.ok (some cached.content), st)

/-- Milliseconds per hour, for `expiresAt.setHours(getHours() + h)`. -/
def msPerHour : Int := 3600000

/-- Source `cacheResponse`: upsert on the composite unique key — overwrite content
and expiry when the row exists, insert a new row (with fresh primary key
`newId`) when it does not. `expiresAt` is now plus the TTL in hours. -/
def cacheResponse (now : Int) (newId : String) (orgId cacheKey value : String)
    (expiresInHours : Int) (st : CacheState) : CacheState :=
  let expiresAt := now + expiresInHours * msPerHour
  match findUnique st orgId cacheKey with
  | some _ =>
    st.map (fun e =>
      if e.orgId == orgId && e.cacheKey == cacheKey then
        { e with content := value, expiresAt := expiresAt }
      else e)
  | none =>
    st ++ [{ id := newId, orgId := orgId, cacheKey := cacheKey,
             content := value, expiresAt := expiresAt }]

/-- The caching discipline shared by the cached AI operations
(`analyzeSkillGap`, `getDailyInsight`, `smartAssign`): unless `forceRefresh`
is set, consult the cache; the callers test the returned string with
JavaScript truthiness (`if (cached)`), so a stored empty string, like a
null, falls through to generation (the operations only ever store
`JSON.stringify` output, which is nonempty, so that branch is unreachable
through the component's own writes). On a miss (or when refresh is forced)
run the generation step (`generate` stands for the AI call together with
response parsing) and, only when it succeeds, upsert the value with the
operation's TTL. A generation error is returned as-is and nothing is
written. -/
def getOrCompute (deleteOk : Bool) (now : Int) (newId : String)
    (orgId cacheKey : String) (ttlHours : Int) (forceRefresh : Bool)
    (generate : Except String String) (st : CacheState) :
    Except String String × CacheState :=
  if forceRefresh then
    match generate with
    | .error e => (.error e, st)
    | .ok v => (.ok v, cacheResponse now newId orgId cacheKey v ttlHours st)
  else
    match getCachedResponse deleteOk now orgId cacheKey st with
    | (.error e, st1) => (.error e, st1)
    | (.ok (some c), st1) =>
      if c = "" then
        match generate with
        | .error e => (.error e, st1)
        | .ok v =>
          (.ok v, cacheResponse now newId orgId cacheKey v ttlHours st1)
      else (.ok c, st1)
    | (.ok none, st1) =>
      match generate with
      | .error e => (.error e, st1)
      | .ok v => (.ok v, cacheResponse now newId orgId cacheKey v ttlHours st1)

/-- Source `analyzeSkillGap`: fixed key "skill-gap", 24 hour TTL, caller-supplied
forceRefresh flag. -/
def analyzeSkillGap (deleteOk : Bool) (now : Int) (newId : String)
    (orgId : String) (forceRefresh : Bool) (generate : Except String String)
    (st : CacheState) : Except String String × CacheState :=
  getOrCompute deleteOk now newId orgId "skill-gap" 24 forceRefresh generate st

/-- Source `getDailyInsight`: fixed key "daily-insight", 24 hour TTL, caller-supplied
forceRefresh flag. -/
def getDailyInsight (deleteOk : Bool) (now : Int) (newId : String)
    (orgId : String) (forceRefresh : Bool) (generate : Except String String)
    (st : CacheState) : Except String String × CacheState :=
  getOrCompute deleteOk now newId orgId "daily-insight" 24 forceRefresh
    generate st

/-- The cache key `smartAssign` derives from its input:
"smart-assign:" followed by the lowercased, trimmed required skill. -/
def smartAssignCacheKey (skillRequired : String) : String :=
  "smart-assign:" ++ skillRequired.toLower.trim

/-- Source `smartAssign`: key derived from the normalized required skill, 6 hour
TTL, and no force-refresh flag (the cache is always consulted). `taskTitle`
enters only the generation prompt, i.e. `generate`, never the key. -/
def smartAssign (deleteOk : Bool) (now : Int) (newId : String)
    (orgId taskTitle skillRequired : String)
    (generate : Except String String) (st : CacheState) :
    Except String String × CacheState :=
  getOrCompute deleteOk now newId orgId (smartAssignCacheKey skillRequired) 6
    false generate st

/-! ## Concrete inputs used by the concrete-scenario theorems -/

/-- The documented example: 8 tasks, 6 completed, 5 on time, 4 HIGH-priority
of which 3 completed. -/
def exampleTasksA : List Task :=
  [ ⟨.COMPLETED, .HIGH, some 10, some 5⟩,
    ⟨.COMPLETED, .HIGH, some 10, some 5⟩,
    ⟨.COMPLETED, .HIGH, some 10, some 5⟩,
    ⟨.COMPLETED, .MEDIUM, some 10, some 5⟩,
    ⟨.COMPLETED, .MEDIUM, some 10, some 5⟩,
    ⟨.COMPLETED, .MEDIUM, some 10, some 20⟩,
    ⟨.TODO, .HIGH, none, none⟩,
    ⟨.IN_PROGRESS, .LOW, none, none⟩ ]

/-- 3 HIGH-priority tasks, 2 completed, 1 on time: the rounded sub-scores sum
to 62 while the final score is 61. -/
def exampleTasksB : List Task :=
  [ ⟨.COMPLETED, .HIGH, some 10, some 5⟩,
    ⟨.COMPLETED, .HIGH, some 10, some 20⟩,
    ⟨.TODO, .HIGH, none, none⟩ ]

/-- One completed-on-time MEDIUM task: 100% completion, no HIGH-priority
tasks. -/
def exampleTasksC : List Task :=
  [ ⟨.COMPLETED, .MEDIUM, some 10, some 5⟩ ]

/-- A single cache row for organization "org-1" under key "skill-gap" that
expires at time 5. -/
def staleState : CacheState :=
  [ ⟨"row-1", "org-1", "skill-gap", "old answer", 5⟩ ]

/-! ## Helper lemmas: rounding -/

theorem jsRound_eq (q : ℚ) (n : ℤ) (h1 : (n : ℚ) ≤ q + 1 / 2)
    (h2 : q + 1 / 2 < (n : ℚ) + 1) : jsRound q = n := by
  rw [jsRound, Int.floor_eq_iff]
  exact ⟨h1, h2⟩

theorem jsRound_zero : jsRound 0 = 0 :=
  jsRound_eq 0 0 (by norm_num) (by norm_num)

theorem jsRound_nonneg (q : ℚ) (h : 0 ≤ q) : 0 ≤ jsRound q := by
  rw [jsRound]
  exact Int.le_floor.mpr (by push_cast; linarith)

theorem jsRound_le (q : ℚ) (b : ℤ) (h : q ≤ (b : ℚ)) : jsRound q ≤ b := by
  rw [jsRound]
  have hlt : ⌊q + 1 / 2⌋ < b + 1 := Int.floor_lt.mpr (by push_cast; linarith)
  omega

/-- The function `calculateProductivityScore`, re-expressed through the standalone
contribution functions. -/
theorem calculateProductivityScore_def (tasks : List Task) :
    calculateProductivityScore tasks =
      if (computeStats tasks).totalTasks = 0 then
        ⟨0, 0, 0, 0, computeStats tasks⟩
      else
        ⟨min 100 (max 0 (jsRound (rawCompletionRate (computeStats tasks) +
            rawDeadlineScore (computeStats tasks) +
            rawPriorityScore (computeStats tasks)))),
          jsRound (rawCompletionRate (computeStats tasks)),
          jsRound (rawDeadlineScore (computeStats tasks)),
          jsRound (rawPriorityScore (computeStats tasks)),
          computeStats tasks⟩ := by
  rfl

/-! ## Helper lemmas: counting -/

theorem length_filter_mono {α : Type} (p q : α → Bool) (l : List α)
    (h : ∀ a, p a = true → q a = true) :
    (l.filter p).length ≤ (l.filter q).length := by
  induction l with
  | nil => simp
  | cons a l ih =>
    simp only [List.filter_cons]
    by_cases hp : p a = true
    · simp only [hp, h a hp, if_true, List.length_cons]
      omega
    · rw [if_neg hp]
      split
      · exact ih.trans (by simp only [List.length_cons]; omega)
      · exact ih

theorem onTime_le_completed (ts : List Task) :
    (computeStats ts).onTimeTasks ≤ (computeStats ts).completedTasks := by
  show (ts.filter isOnTime).length ≤ (ts.filter isCompleted).length
  apply length_filter_mono
  intro t ht
  rw [isOnTime] at ht
  exact ((Bool.and_eq_true _ _).mp ht).1

theorem rawDeadlineScore_nonneg (s : TaskStats) : 0 ≤ rawDeadlineScore s := by
  rw [rawDeadlineScore]
  split
  · exact mul_nonneg (div_nonneg (Nat.cast_nonneg _) (Nat.cast_nonneg _))
      (by norm_num)
  · exact le_refl 0

theorem rawDeadlineScore_le (s : TaskStats)
    (h : s.onTimeTasks ≤ s.completedTasks) : rawDeadlineScore s ≤ 35 := by
  rw [rawDeadlineScore]
  split
  · rename_i hpos
    have hc : (0 : ℚ) < s.completedTasks := by exact_mod_cast hpos
    have hratio : (s.onTimeTasks : ℚ) / s.completedTasks ≤ 1 :=
      (div_le_one hc).mpr (by exact_mod_cast h)
    nlinarith
  · norm_num

/-! ## Helper lemmas: cache table -/

theorem find?_map_pres (p : CacheEntry → Bool) (f : CacheEntry → CacheEntry)
    (hf : ∀ e, p (f e) = p e) (st : List CacheEntry) :
    (st.map f).find? p = (st.find? p).map f := by
  induction st with
  | nil => rfl
  | cons a l ih =>
    rw [List.map_cons, List.find?_cons, List.find?_cons, hf a]
    cases p a
    · exact ih
    · rfl

theorem filter_map_invariant (p : CacheEntry → Bool)
    (f : CacheEntry → CacheEntry) (hf : ∀ e, p (f e) = p e)
    (hid : ∀ e, p e = true → f e = e) (st : List CacheEntry) :
    (st.map f).filter p = st.filter p := by
  induction st with
  | nil => rfl
  | cons a l ih =>
    rw [List.map_cons, List.filter_cons, List.filter_cons, hf a]
    by_cases hp : p a = true
    · rw [if_pos hp, if_pos hp, hid a hp, ih]
    · rw [if_neg hp, if_neg hp, ih]

/-- The upsert's update function does not change orgId or cacheKey, so any
predicate on those two fields is preserved. -/
theorem upsert_update_preserves (orgId k v : String) (x : Int)
    (p : String → String → Bool) (e : CacheEntry) :
    (p (if e.orgId == orgId && e.cacheKey == k then
          { e with content := v, expiresAt := x }
        else e).orgId
      (if e.orgId == orgId && e.cacheKey == k then
          { e with content := v, expiresAt := x }
        else e).cacheKey) = p e.orgId e.cacheKey := by
  split <;> rfl

/-- Looking the written key up right after the upsert finds a row carrying
exactly the written content and the expiry now + ttl hours. -/
theorem findUnique_cacheResponse_self (now : Int) (newId orgId k v : String)
    (ttl : Int) (st : CacheState) :
    ∃ i, findUnique (cacheResponse now newId orgId k v ttl st) orgId k =
      some ⟨i, orgId, k, v, now + ttl * msPerHour⟩ := by
  rw [cacheResponse]
  cases hfind : findUnique st orgId k with
  | none =>
    refine ⟨newId, ?_⟩
    dsimp only
    rw [findUnique, List.find?_append]
    rw [findUnique] at hfind
    rw [hfind]
    simp [List.find?_cons]
  | some e =>
    have hpe0 := List.find?_some
      (show List.find? (fun x => x.orgId == orgId && x.cacheKey == k) st
        = some e from hfind)
    have hpe : (e.orgId == orgId && e.cacheKey == k) = true := hpe0
    refine ⟨e.id, ?_⟩
    dsimp only
    rw [findUnique, find?_map_pres _ _
      (fun e' => upsert_update_preserves orgId k v (now + ttl * msPerHour)
        (fun a b => a == orgId && b == k) e')]
    rw [findUnique] at hfind
    rw [hfind, Option.map_some', if_pos hpe]
    obtain ⟨ho, hk⟩ := Bool.and_eq_true _ _ |>.mp hpe
    have ho' : e.orgId = orgId := by simpa using ho
    have hk' : e.cacheKey = k := by simpa using hk
    cases e
    simp_all

/-- An upsert under one organization does not change what a lookup under a
different organization finds. -/
theorem findUnique_cacheResponse_other (now : Int) (newId orgA k v : String)
    (ttl : Int) (st : CacheState) (orgB k' : String) (horg : orgA ≠ orgB) :
    findUnique (cacheResponse now newId orgA k v ttl st) orgB k' =
      findUnique st orgB k' := by
  rw [cacheResponse]
  cases hfind : findUnique st orgA k with
  | none =>
    dsimp only
    rw [findUnique, List.find?_append]
    have hnew : ((⟨newId, orgA, k, v, now + ttl * msPerHour⟩ :
        CacheEntry).orgId == orgB && (⟨newId, orgA, k, v,
          now + ttl * msPerHour⟩ : CacheEntry).cacheKey == k') = false := by
      have : (orgA == orgB) = false := beq_eq_false_iff_ne.mpr horg
      simp [this]
    rw [List.find?_cons]
    simp only [hnew, List.find?_nil, Option.or_none]
    rfl
  | some e =>
    dsimp only
    rw [findUnique, find?_map_pres _ _
      (fun e' => upsert_update_preserves orgA k v (now + ttl * msPerHour)
        (fun a b => a == orgB && b == k') e'), ← findUnique]
    cases hfB : findUnique st orgB k' with
    | none => rw [Option.map_none']
    | some eB =>
      rw [Option.map_some']
      have hpB0 := List.find?_some
        (show List.find? (fun x => x.orgId == orgB && x.cacheKey == k') st
          = some eB from hfB)
      have hpB : (eB.orgId == orgB && eB.cacheKey == k') = true := hpB0
      have hoB : eB.orgId = orgB := by
        simpa using (Bool.and_eq_true _ _ |>.mp hpB).1
      have : (eB.orgId == orgA && eB.cacheKey == k) = false := by
        have : (eB.orgId == orgA) = false :=
          beq_eq_false_iff_ne.mpr (by rw [hoB]; exact fun h => horg h.symm)
        simp [this]
      rw [if_neg (by simp [this])]

/-- An upsert under one organization leaves the rows of a different
organization unchanged. -/
theorem cacheResponse_other_org_rows (now : Int) (newId orgA k v : String)
    (ttl : Int) (st : CacheState) (orgB : String) (horg : orgA ≠ orgB) :
    (cacheResponse now newId orgA k v ttl st).filter
        (fun e => e.orgId == orgB) =
      st.filter (fun e => e.orgId == orgB) := by
  rw [cacheResponse]
  cases hfind : findUnique st orgA k with
  | none =>
    dsimp only
    rw [List.filter_append]
    have : (orgA == orgB) = false := beq_eq_false_iff_ne.mpr horg
    simp [this]
  | some e =>
    dsimp only
    apply filter_map_invariant
    · intro e'
      exact upsert_update_preserves orgA k v (now + ttl * msPerHour)
        (fun a _ => a == orgB) e'
    · intro e' hp
      have ho : e'.orgId = orgB := by simpa using hp
      rw [if_neg]
      simp only [Bool.and_eq_true, not_and]
      intro hA
      exact absurd (by simpa using hA) (by rw [ho]; exact fun h => horg h.symm)

/-- The state after a lookup is a sublist of the state before it: the lookup
never adds or edits rows; at most it deletes the found stale row. -/
theorem getCachedResponse_snd_sublist (deleteOk : Bool) (now : Int)
    (orgId k : String) (st : CacheState) :
    (getCachedResponse deleteOk now orgId k st).snd.Sublist st := by
  rw [getCachedResponse]
  cases findUnique st orgId k with
  | none => exact List.Sublist.refl st
  | some c =>
    dsimp only
    split
    · split
      · exact List.filter_sublist st
      · exact List.Sublist.refl st
    · exact List.Sublist.refl st

/-- The outcome (first component) of a lookup is a function of the row the
composite-key lookup finds. -/
theorem getCachedResponse_fst (deleteOk : Bool) (now : Int)
    (orgId k : String) (st : CacheState) :
    (getCachedResponse deleteOk now orgId k st).fst =
      match findUnique st orgId k with
      | none => .ok none
      | some c =>
        if c.expiresAt < now then
          if deleteOk then .ok none else .error "storage: delete failed"
        else .ok (some c.content) := by
  rw [getCachedResponse]
  cases findUnique st orgId k with
  | none => rfl
  | some c =>
    dsimp only
    split
    · split <;> rfl
    · rfl

/-! ## Claim theorems: ScoreEngine -/

/-- C1. On the documented example of 8 tasks (6 completed, 5 on time,
4 HIGH-priority of which 3 completed) the unrounded contributions are
(6/8)*40 = 30, (5/6)*35 and (3/4)*25 = 18.75, and the result is
finalScore = 78 with the rounded sub-scores 30, 29, 19. -/
theorem productivityScore_documented_example :
    computeStats exampleTasksA = ⟨8, 6, 5, 4, 3⟩ ∧
    rawCompletionRate ⟨8, 6, 5, 4, 3⟩ = 6 / 8 * 40 ∧
    rawDeadlineScore ⟨8, 6, 5, 4, 3⟩ = 5 / 6 * 35 ∧
    rawPriorityScore ⟨8, 6, 5, 4, 3⟩ = 18.75 ∧
    (6 : ℚ) / 8 * 40 = 30 ∧
    jsRound (6 / 8 * 40 + 5 / 6 * 35 + 18.75) = 78 ∧
    calculateProductivityScore exampleTasksA
      = ⟨78, 30, 29, 19, ⟨8, 6, 5, 4, 3⟩⟩ := by
  have hs : computeStats exampleTasksA = ⟨8, 6, 5, 4, 3⟩ := by decide
  have h1 : rawCompletionRate ⟨8, 6, 5, 4, 3⟩ = 6 / 8 * 40 := by
    rw [rawCompletionRate]; norm_num
  have h2 : rawDeadlineScore ⟨8, 6, 5, 4, 3⟩ = 5 / 6 * 35 := by
    rw [rawDeadlineScore]; norm_num
  have h3 : rawPriorityScore ⟨8, 6, 5, 4, 3⟩ = 18.75 := by
    rw [rawPriorityScore]; norm_num
  refine ⟨hs, h1, h2, h3, by norm_num,
    by rw [show (6 : ℚ) / 8 * 40 + 5 / 6 * 35 + 18.75 = 935 / 12 by norm_num]
       exact jsRound_eq _ 78 (by norm_num) (by norm_num), ?_⟩
  rw [calculateProductivityScore_def, hs, if_neg (by norm_num), h1, h2, h3]
  rw [show (6 : ℚ) / 8 * 40 + 5 / 6 * 35 + 18.75 = 935 / 12 by norm_num,
    show (6 : ℚ) / 8 * 40 = 30 by norm_num,
    show (5 : ℚ) / 6 * 35 = 175 / 6 by norm_num,
    show (18.75 : ℚ) = 75 / 4 by norm_num,
    jsRound_eq (935 / 12) 78 (by norm_num) (by norm_num),
    jsRound_eq 30 30 (by norm_num) (by norm_num),
    jsRound_eq (175 / 6) 29 (by norm_num) (by norm_num),
    jsRound_eq (75 / 4) 19 (by norm_num) (by norm_num)]
  norm_num

/-- C4. When there is at least one task and no HIGH-priority task, the
reported priorityScore is 0 and the completion contribution is weighted 65
rather than 40; with 100% completion the final score is exactly
65 + deadlineScore. -/
theorem productivityScore_no_high_priority (ts : List Task)
    (h0 : 0 < (computeStats ts).totalTasks)
    (hh : (computeStats ts).highPriorityTotal = 0) :
    (calculateProductivityScore ts).priorityScore = 0 ∧
    (calculateProductivityScore ts).completionRate =
      jsRound (((computeStats ts).completedTasks : ℚ) /
        ((computeStats ts).totalTasks : ℚ) * 65) ∧
    ((computeStats ts).completedTasks = (computeStats ts).totalTasks →
      (calculateProductivityScore ts).finalScore =
        65 + (calculateProductivityScore ts).deadlineScore) := by
  rw [calculateProductivityScore_def, if_neg (by omega)]
  have hps : rawPriorityScore (computeStats ts) = 0 := by
    rw [rawPriorityScore, if_neg (by omega)]
  have hcr : rawCompletionRate (computeStats ts) =
      ((computeStats ts).completedTasks : ℚ) /
        ((computeStats ts).totalTasks : ℚ) * 65 := by
    rw [rawCompletionRate, if_pos hh]
  refine ⟨?_, ?_, ?_⟩
  · show jsRound (rawPriorityScore (computeStats ts)) = 0
    rw [hps, jsRound_zero]
  · show jsRound (rawCompletionRate (computeStats ts)) = _
    rw [hcr]
  · intro hc
    show min 100 (max 0 (jsRound (rawCompletionRate (computeStats ts) +
        rawDeadlineScore (computeStats ts) +
        rawPriorityScore (computeStats ts)))) =
      65 + jsRound (rawDeadlineScore (computeStats ts))
    have htne : ((computeStats ts).totalTasks : ℚ) ≠ 0 :=
      Nat.cast_ne_zero.mpr (by omega)
    have hcr65 : rawCompletionRate (computeStats ts) = 65 := by
      rw [hcr, hc, div_self htne, one_mul]
    have hd0 : 0 ≤ rawDeadlineScore (computeStats ts) :=
      rawDeadlineScore_nonneg _
    have hd35 : rawDeadlineScore (computeStats ts) ≤ 35 :=
      rawDeadlineScore_le _ (onTime_le_completed ts)
    have hjd0 : 0 ≤ jsRound (rawDeadlineScore (computeStats ts)) :=
      jsRound_nonneg _ hd0
    have hjd35 : jsRound (rawDeadlineScore (computeStats ts)) ≤ 35 :=
      jsRound_le _ 35 (by exact_mod_cast hd35)
    have hsplit : jsRound (65 + rawDeadlineScore (computeStats ts)) =
        65 + jsRound (rawDeadlineScore (computeStats ts)) := by
      rw [jsRound, jsRound,
        show (65 : ℚ) + rawDeadlineScore (computeStats ts) + 1 / 2 =
          ((65 : ℤ) : ℚ) + (rawDeadlineScore (computeStats ts) + 1 / 2) by
            push_cast; ring,
        Int.floor_int_add]
    rw [hcr65, hps, add_zero, hsplit,
      max_eq_right (by omega), min_eq_right (by omega)]

/-- C4 witness: a single completed-on-time MEDIUM task has one task, no
HIGH-priority tasks, full completion, and score 100 = 65 + 35. -/
theorem productivityScore_no_high_priority_witness :
    0 < (computeStats exampleTasksC).totalTasks ∧
    (computeStats exampleTasksC).highPriorityTotal = 0 ∧
    ((calculateProductivityScore exampleTasksC).priorityScore = 0 ∧
      (calculateProductivityScore exampleTasksC).completionRate =
        jsRound (((computeStats exampleTasksC).completedTasks : ℚ) /
          ((computeStats exampleTasksC).totalTasks : ℚ) * 65) ∧
      ((computeStats exampleTasksC).completedTasks =
          (computeStats exampleTasksC).totalTasks →
        (calculateProductivityScore exampleTasksC).finalScore =
          65 + (calculateProductivityScore exampleTasksC).deadlineScore)) :=
  ⟨by decide, by decide,
    productivityScore_no_high_priority exampleTasksC (by decide) (by decide)⟩

/-- C5. The final score is the single rounding of the sum of the three
unrounded contributions (then clamped), while each reported sub-score is
rounded independently; on `exampleTasksB` the final score (61) differs from
the sum of the three reported sub-scores (27 + 18 + 17 = 62). -/
theorem productivityScore_rounding_structure :
    (∀ ts : List Task,
      (calculateProductivityScore ts).finalScore =
        min 100 (max 0 (jsRound (rawCompletionRate (computeStats ts) +
          rawDeadlineScore (computeStats ts) +
          rawPriorityScore (computeStats ts)))) ∧
      (calculateProductivityScore ts).completionRate =
        jsRound (rawCompletionRate (computeStats ts)) ∧
      (calculateProductivityScore ts).deadlineScore =
        jsRound (rawDeadlineScore (computeStats ts)) ∧
      (calculateProductivityScore ts).priorityScore =
        jsRound (rawPriorityScore (computeStats ts))) ∧
    (calculateProductivityScore exampleTasksB).finalScore ≠
      (calculateProductivityScore exampleTasksB).completionRate +
        (calculateProductivityScore exampleTasksB).deadlineScore +
        (calculateProductivityScore exampleTasksB).priorityScore := by
  constructor
  · intro ts
    rw [calculateProductivityScore_def]
    split
    · rename_i hz
      have hnil : ts = [] := List.length_eq_zero.mp hz
      subst hnil
      have hstats : computeStats ([] : List Task) = ⟨0, 0, 0, 0, 0⟩ := rfl
      rw [hstats]
      have hc : rawCompletionRate ⟨0, 0, 0, 0, 0⟩ = 0 := by
        rw [rawCompletionRate]; norm_num
      have hd : rawDeadlineScore ⟨0, 0, 0, 0, 0⟩ = 0 := by
        rw [rawDeadlineScore]; norm_num
      have hp : rawPriorityScore ⟨0, 0, 0, 0, 0⟩ = 0 := by
        rw [rawPriorityScore]; norm_num
      rw [hc, hd, hp]
      norm_num [jsRound_zero]
    · exact ⟨rfl, rfl, rfl, rfl⟩
  · have hs : computeStats exampleTasksB = ⟨3, 2, 1, 3, 2⟩ := by decide
    have h1 : rawCompletionRate ⟨3, 2, 1, 3, 2⟩ = 80 / 3 := by
      rw [rawCompletionRate]; norm_num
    have h2 : rawDeadlineScore ⟨3, 2, 1, 3, 2⟩ = 35 / 2 := by
      rw [rawDeadlineScore]; norm_num
    have h3 : rawPriorityScore ⟨3, 2, 1, 3, 2⟩ = 50 / 3 := by
      rw [rawPriorityScore]; norm_num
    rw [calculateProductivityScore_def, hs, if_neg (by norm_num), h1, h2, h3,
      show (80 : ℚ) / 3 + 35 / 2 + 50 / 3 = 365 / 6 by norm_num,
      jsRound_eq (365 / 6) 61 (by norm_num) (by norm_num),
      jsRound_eq (80 / 3) 27 (by norm_num) (by norm_num),
      jsRound_eq (35 / 2) 18 (by norm_num) (by norm_num),
      jsRound_eq (50 / 3) 17 (by norm_num) (by norm_num)]
    norm_num

/-- C8. For every task list the final score is an integer (the result field
has type ℤ) lying between 0 and 100. -/
theorem productivityScore_finalScore_bounds (ts : List Task) :
    0 ≤ (calculateProductivityScore ts).finalScore ∧
    (calculateProductivityScore ts).finalScore ≤ 100 := by
  rw [calculateProductivityScore_def]
  split
  · exact ⟨le_refl 0, by norm_num⟩
  · exact ⟨le_min (by norm_num) (le_max_left 0 _), min_le_left _ _⟩

/-! ## Claim theorems: ResponseCache -/

/-- C6. A lookup that finds an unexpired row returns the stored content
string verbatim with the table unchanged, for every generation callback (so
the callback is never consulted); and a read of a key right after a write,
before the TTL has elapsed, returns exactly the written string. The content
is assumed nonempty, which holds for everything the operations store
(`JSON.stringify` output), since the callers test the returned string with
JavaScript truthiness. -/
theorem cache_unexpired_hit (st : CacheState) (orgId k : String) (now : Int)
    (c : CacheEntry) (hfound : findUnique st orgId k = some c)
    (hfresh : ¬ c.expiresAt < now) (hne : c.content ≠ "") :
    (∀ (deleteOk : Bool) (newId : String) (ttl : Int)
        (g : Except String String),
      getOrCompute deleteOk now newId orgId k ttl false g st =
        (.ok c.content, st)) ∧
    (∀ (deleteOk₂ : Bool) (now₂ : Int) (newId₂ v : String) (ttl₂ : Int)
        (st₂ : CacheState),
      ¬ now + ttl₂ * msPerHour < now₂ →
      getCachedResponse deleteOk₂ now₂ orgId k
          (cacheResponse now newId₂ orgId k v ttl₂ st₂) =
        (.ok (some v), cacheResponse now newId₂ orgId k v ttl₂ st₂)) := by
  constructor
  · intro deleteOk newId ttl g
    have hhit : getCachedResponse deleteOk now orgId k st =
        (.ok (some c.content), st) := by
      rw [getCachedResponse, hfound]
      dsimp only
      rw [if_neg hfresh]
    rw [getOrCompute.eq_def, if_neg (by decide), hhit]
    simp only [if_neg hne]
  · intro deleteOk₂ now₂ newId₂ v ttl₂ st₂ h₂
    obtain ⟨i, hfi⟩ :=
      findUnique_cacheResponse_self now newId₂ orgId k v ttl₂ st₂
    rw [getCachedResponse, hfi]
    dsimp only
    rw [if_neg h₂]

/-- C6 witness: the "org-1"/"skill-gap" row expiring at 5 is a hit at time 3
and "old answer" is returned unchanged. -/
theorem cache_unexpired_hit_witness :
    findUnique staleState "org-1" "skill-gap" =
      some ⟨"row-1", "org-1", "skill-gap", "old answer", 5⟩ ∧
    ¬ ((⟨"row-1", "org-1", "skill-gap", "old answer", 5⟩ :
        CacheEntry).expiresAt < (3 : Int)) ∧
    (⟨"row-1", "org-1", "skill-gap", "old answer", 5⟩ :
        CacheEntry).content ≠ "" ∧
    ((∀ (deleteOk : Bool) (newId : String) (ttl : Int)
        (g : Except String String),
      getOrCompute deleteOk 3 newId "org-1" "skill-gap" ttl false g
          staleState =
        (.ok (⟨"row-1", "org-1", "skill-gap", "old answer", 5⟩ :
          CacheEntry).content, staleState)) ∧
    (∀ (deleteOk₂ : Bool) (now₂ : Int) (newId₂ v : String) (ttl₂ : Int)
        (st₂ : CacheState),
      ¬ (3 : Int) + ttl₂ * msPerHour < now₂ →
      getCachedResponse deleteOk₂ now₂ "org-1" "skill-gap"
          (cacheResponse 3 newId₂ "org-1" "skill-gap" v ttl₂ st₂) =
        (.ok (some v), cacheResponse 3 newId₂ "org-1" "skill-gap" v ttl₂
          st₂))) :=
  ⟨by decide, by decide, by decide,
    cache_unexpired_hit staleState "org-1" "skill-gap" 3
      ⟨"row-1", "org-1", "skill-gap", "old answer", 5⟩
      (by decide) (by decide) (by decide)⟩

/-- C2 counterexample: at time 10 the "org-1"/"skill-gap" row (expiry 5) is
stale; with the delete failing, `analyzeSkillGap` returns the storage error
and not the generation callback's fresh result — the deletion failure does
block the fresh computation. -/
theorem cache_delete_failure_blocks_cex :
    (5 : Int) < 10 ∧
    findUnique staleState "org-1" "skill-gap" =
      some ⟨"row-1", "org-1", "skill-gap", "old answer", 5⟩ ∧
    analyzeSkillGap false 10 "row-2" "org-1" false (.ok "fresh") staleState =
      (.error "storage: delete failed", staleState) :=
  ⟨by decide, by decide, by rfl⟩

/-- C2 (amended). A row found expired is treated as a miss and eagerly
deleted, after which generation runs and its result is returned and cached;
but when the delete fails, the storage error propagates to the caller and
the generation callback is never invoked (the outcome is the same error for
every callback, with the table unchanged). -/
theorem cache_expired_entry_eager_delete (st : CacheState) (orgId k : String)
    (now : Int) (c : CacheEntry) (hfound : findUnique st orgId k = some c)
    (hexp : c.expiresAt < now) :
    getCachedResponse true now orgId k st = (.ok none, deleteById st c.id) ∧
    (∀ (newId v : String) (ttl : Int),
      getOrCompute true now newId orgId k ttl false (.ok v) st =
        (.ok v, cacheResponse now newId orgId k v ttl
          (deleteById st c.id))) ∧
    getCachedResponse false now orgId k st =
      (.error "storage: delete failed", st) ∧
    (∀ (newId : String) (ttl : Int) (g : Except String String),
      getOrCompute false now newId orgId k ttl false g st =
        (.error "storage: delete failed", st)) := by
  have hdel : getCachedResponse true now orgId k st =
      (.ok none, deleteById st c.id) := by
    rw [getCachedResponse, hfound]
    dsimp only
    rw [if_pos hexp]
    rfl
  have hfail : getCachedResponse false now orgId k st =
      (.error "storage: delete failed", st) := by
    rw [getCachedResponse, hfound]
    dsimp only
    rw [if_pos hexp]
    rfl
  refine ⟨hdel, ?_, hfail, ?_⟩
  · intro newId v ttl
    rw [getOrCompute.eq_def, if_neg (by decide), hdel]
  · intro newId ttl g
    rw [getOrCompute.eq_def, if_neg (by decide), hfail]

/-- C2 witness: the stale row at time 10. -/
theorem cache_expired_entry_eager_delete_witness :
    findUnique staleState "org-1" "skill-gap" =
      some ⟨"row-1", "org-1", "skill-gap", "old answer", 5⟩ ∧
    ((⟨"row-1", "org-1", "skill-gap", "old answer", 5⟩ :
        CacheEntry).expiresAt < (10 : Int)) ∧
    (getCachedResponse true 10 "org-1" "skill-gap" staleState =
        (.ok none, deleteById staleState "row-1") ∧
      (∀ (newId v : String) (ttl : Int),
        getOrCompute true 10 newId "org-1" "skill-gap" ttl false (.ok v)
            staleState =
          (.ok v, cacheResponse 10 newId "org-1" "skill-gap" v ttl
            (deleteById staleState "row-1"))) ∧
      getCachedResponse false 10 "org-1" "skill-gap" staleState =
        (.error "storage: delete failed", staleState) ∧
      (∀ (newId : String) (ttl : Int) (g : Except String String),
        getOrCompute false 10 newId "org-1" "skill-gap" ttl false g
            staleState =
          (.error "storage: delete failed", staleState))) :=
  ⟨by decide, by decide,
    cache_expired_entry_eager_delete staleState "org-1" "skill-gap" 10
      ⟨"row-1", "org-1", "skill-gap", "old answer", 5⟩
      (by decide) (by decide)⟩

/-- C3. With forceRefresh set, the generation result is returned and
upserted for (orgId, cacheKey) whatever the prior table (in particular when
an unexpired row exists), overwriting that row with the new content and
expiry now + ttl hours; `analyzeSkillGap` and `getDailyInsight` are the
cached operations carrying the flag. -/
theorem cache_force_refresh_generates_and_overwrites (deleteOk : Bool)
    (now : Int) (newId orgId k v : String) (ttl : Int) (st : CacheState) :
    getOrCompute deleteOk now newId orgId k ttl true (.ok v) st =
      (.ok v, cacheResponse now newId orgId k v ttl st) ∧
    (∃ i, findUnique (cacheResponse now newId orgId k v ttl st) orgId k =
      some ⟨i, orgId, k, v, now + ttl * msPerHour⟩) ∧
    analyzeSkillGap deleteOk now newId orgId true (.ok v) st =
      (.ok v, cacheResponse now newId orgId "skill-gap" v 24 st) ∧
    getDailyInsight deleteOk now newId orgId true (.ok v) st =
      (.ok v, cacheResponse now newId orgId "daily-insight" v 24 st) := by
  refine ⟨?_, findUnique_cacheResponse_self now newId orgId k v ttl st,
    ?_, ?_⟩
  · rw [getOrCompute]
    rfl
  · rw [analyzeSkillGap, getOrCompute]
    rfl
  · rw [getDailyInsight, getOrCompute]
    rfl

/-- C7 counterexample: at time 10 the stale "org-1"/"skill-gap" row is
eagerly deleted during the lookup; when generation then fails, the error
propagates unchanged but the table did change (the row is gone), so "the
cache state is unchanged on error" fails. -/
theorem cache_error_mutates_state_cex :
    analyzeSkillGap true 10 "row-2" "org-1" false (.error "AI unreachable")
        staleState =
      (.error "AI unreachable", []) ∧
    staleState ≠ [] :=
  ⟨by rfl, by decide⟩

/-- C7 (amended). When the generation step fails on a miss or a forced
refresh, its error propagates unchanged and no row is created or modified:
the final table is exactly the post-lookup table, which is a sublist of the
original table (at most the found stale row was already eagerly deleted by
the lookup). -/
theorem cache_generation_failure_propagates (deleteOk : Bool) (now : Int)
    (newId orgId k : String) (ttl : Int) (force : Bool) (e : String)
    (st : CacheState)
    (h : force = true ∨
      (getCachedResponse deleteOk now orgId k st).fst = .ok none) :
    getOrCompute deleteOk now newId orgId k ttl force (.error e) st =
      (.error e,
        if force then st
        else (getCachedResponse deleteOk now orgId k st).snd) ∧
    (getCachedResponse deleteOk now orgId k st).snd.Sublist st := by
  refine ⟨?_, getCachedResponse_snd_sublist deleteOk now orgId k st⟩
  cases force with
  | true =>
    rw [getOrCompute]
    rfl
  | false =>
    have hm : (getCachedResponse deleteOk now orgId k st).fst = .ok none := by
      rcases h with hf | hm
      · exact absurd hf (by decide)
      · exact hm
    rcases hr : getCachedResponse deleteOk now orgId k st with ⟨r1, r2⟩
    rw [hr] at hm
    dsimp only at hm
    subst hm
    rw [getOrCompute, if_neg (by decide), hr]
    rfl

/-- C7 witness: the stale-row scenario at time 10 with a failing generation
step. -/
theorem cache_generation_failure_propagates_witness :
    ((false : Bool) = true ∨
      (getCachedResponse true 10 "org-1" "skill-gap" staleState).fst =
        .ok none) ∧
    (getOrCompute true 10 "row-2" "org-1" "skill-gap" 24 false
        (.error "AI unreachable") staleState =
      (.error "AI unreachable",
        if false then staleState
        else (getCachedResponse true 10 "org-1" "skill-gap"
          staleState).snd) ∧
    (getCachedResponse true 10 "org-1" "skill-gap"
      staleState).snd.Sublist staleState) :=
  ⟨Or.inr (by rfl),
    cache_generation_failure_propagates true 10 "row-2" "org-1" "skill-gap"
      24 false "AI unreachable" staleState (Or.inr (by rfl))⟩

/-- C9. Tenant isolation: for distinct organizations, an upsert under orgA
never changes what a lookup under orgB observes (same key string), and it
leaves every row of orgB unchanged. -/
theorem cache_tenant_isolation (orgA orgB : String) (horg : orgA ≠ orgB) :
    ∀ (k v newId : String) (now now' ttl : Int) (deleteOk : Bool)
      (st : CacheState),
      (getCachedResponse deleteOk now' orgB k
          (cacheResponse now newId orgA k v ttl st)).fst =
        (getCachedResponse deleteOk now' orgB k st).fst ∧
      (cacheResponse now newId orgA k v ttl st).filter
          (fun e => e.orgId == orgB) =
        st.filter (fun e => e.orgId == orgB) := by
  intro k v newId now now' ttl deleteOk st
  refine ⟨?_,
    cacheResponse_other_org_rows now newId orgA k v ttl st orgB horg⟩
  rw [getCachedResponse_fst, getCachedResponse_fst,
    findUnique_cacheResponse_other now newId orgA k v ttl st orgB k horg]

/-- C9 witness: the two concrete organizations "org-a" and "org-b". -/
theorem cache_tenant_isolation_witness :
    ("org-a" : String) ≠ "org-b" ∧
    (∀ (k v newId : String) (now now' ttl : Int) (deleteOk : Bool)
      (st : CacheState),
      (getCachedResponse deleteOk now' "org-b" k
          (cacheResponse now newId "org-a" k v ttl st)).fst =
        (getCachedResponse deleteOk now' "org-b" k st).fst ∧
      (cacheResponse now newId "org-a" k v ttl st).filter
          (fun e => e.orgId == "org-b") =
        st.filter (fun e => e.orgId == "org-b")) :=
  ⟨by decide, cache_tenant_isolation "org-a" "org-b" (by decide)⟩

/-- C10. Two smartAssign inputs with the same orgId and taskTitle whose
skillRequired values agree after lowercasing and trimming derive the same
cache key; when the first call misses, generates v and caches it, a second
call with the other spelling, at the same time, returns exactly v with the
table unchanged, for every generation callback (so the AI step is never
invoked). The cached v is assumed nonempty, which holds for the JSON text
smartAssign stores. -/
theorem smartAssign_normalized_key_sharing (s1 s2 : String)
    (hnorm : s1.toLower.trim = s2.toLower.trim)
    (orgId taskTitle newId v : String) (hv : v ≠ "") (now : Int)
    (deleteOk : Bool) (st st1 : CacheState)
    (hmiss : getCachedResponse deleteOk now orgId (smartAssignCacheKey s1) st
      = (.ok none, st1)) :
    smartAssignCacheKey s1 = smartAssignCacheKey s2 ∧
    smartAssign deleteOk now newId orgId taskTitle s1 (.ok v) st =
      (.ok v,
        cacheResponse now newId orgId (smartAssignCacheKey s1) v 6 st1) ∧
    (∀ (deleteOk₂ : Bool) (newId₂ taskTitle₂ : String)
        (g : Except String String),
      smartAssign deleteOk₂ now newId₂ orgId taskTitle₂ s2 g
          (cacheResponse now newId orgId (smartAssignCacheKey s1) v 6 st1) =
        (.ok v,
          cacheResponse now newId orgId (smartAssignCacheKey s1) v 6
            st1)) := by
  have hkey : smartAssignCacheKey s1 = smartAssignCacheKey s2 := by
    rw [smartAssignCacheKey, smartAssignCacheKey, hnorm]
  refine ⟨hkey, ?_, ?_⟩
  · rw [smartAssign, getOrCompute.eq_def, if_neg (by decide), hmiss]
  · intro deleteOk₂ newId₂ taskTitle₂ g
    rw [smartAssign, ← hkey, getOrCompute.eq_def, if_neg (by decide)]
    obtain ⟨i, hfi⟩ := findUnique_cacheResponse_self now newId orgId
      (smartAssignCacheKey s1) v 6 st1
    have hhit : getCachedResponse deleteOk₂ now orgId (smartAssignCacheKey s1)
        (cacheResponse now newId orgId (smartAssignCacheKey s1) v 6 st1) =
        (.ok (some v),
          cacheResponse now newId orgId (smartAssignCacheKey s1) v 6 st1) := by
      rw [getCachedResponse, hfi]
      dsimp only
      rw [if_neg (by
        show ¬ now + 6 * msPerHour < now
        rw [show msPerHour = 3600000 from rfl]
        omega)]
    rw [hhit]
    simp only [if_neg hv]

/-- C10 witness: starting from the empty table the first call caches and the
second call hits (the two skillRequired spellings normalize identically). -/
theorem smartAssign_normalized_key_sharing_witness :
    ("react".toLower.trim = "react".toLower.trim) ∧
    ("ai answer" : String) ≠ "" ∧
    getCachedResponse true 0 "org-1" (smartAssignCacheKey "react") [] =
      (.ok none, []) ∧
    (smartAssignCacheKey "react" = smartAssignCacheKey "react" ∧
    smartAssign true 0 "row-9" "org-1" "Fix login flow" "react"
        (.ok "ai answer") [] =
      (.ok "ai answer",
        cacheResponse 0 "row-9" "org-1" (smartAssignCacheKey "react")
          "ai answer" 6 []) ∧
    (∀ (deleteOk₂ : Bool) (newId₂ taskTitle₂ : String)
        (g : Except String String),
      smartAssign deleteOk₂ 0 newId₂ "org-1" taskTitle₂ "react" g
          (cacheResponse 0 "row-9" "org-1" (smartAssignCacheKey "react")
            "ai answer" 6 []) =
        (.ok "ai answer",
          cacheResponse 0 "row-9" "org-1" (smartAssignCacheKey "react")
            "ai answer" 6 []))) :=
  ⟨rfl, by decide, by rfl,
    smartAssign_normalized_key_sharing "react" "react" rfl
      "org-1" "Fix login flow" "row-9" "ai answer" (by decide) 0 true [] []
      (by rfl)⟩

end TalentOS
